import Mathlib

/-!
Shallow embedding of the mule-fraud-detector utility module
(`fraud_utils`): feature schema constants, boolean coercion,
input normalization, model loading with a module-level cache, and the
prediction routine.  Python dynamic values are modelled by `PyVal`,
Python dicts by partial maps `String → Option PyVal`, floats by
rationals, and the opaque scoring artifact by a record of optional
capability functions.
-/

namespace FraudUtils

/-- Dynamic Python value as it can occur in the raw user-input dict:
booleans, ints, floats (modelled as rationals), strings, or a value of
any other type. -/
inductive PyVal where
  | bool (b : Bool)
  | int (n : Int)
  | float (q : ℚ)
  | str (s : String)
  | other
deriving DecidableEq, Repr

/-- Python `int(x)` on a float: truncation toward zero. -/
def truncRat (q : ℚ) : Int :=
  if 0 ≤ q.num then q.floor else q.ceil

/-- Characters stripped by Python `str.strip()` (ASCII whitespace). -/
def pyIsSpace (c : Char) : Bool :=
  c = ' ' || c = '\t' || c = '\n' || c = '\x0d' || c = '\x0b' || c = '\x0c'

/-- Python `str.strip()`: drop leading and trailing whitespace. -/
def pyStrip (s : String) : String :=
  ⟨((s.data.dropWhile pyIsSpace).reverse.dropWhile pyIsSpace).reverse⟩

/-- Python `str.lower()` (ASCII fragment). -/
def pyLower (s : String) : String :=
  ⟨s.data.map Char.toLower⟩

/-- The module constant naming the artifact file. -/
def MODEL_FILENAME : String := "mule_fraud_model.pkl"

/-- Ordered list of the 20 feature names the artifact expects. -/
def FEATURES : List String := [
  "age",
  "city",
  "account_tenure_months",
  "avg_monthly_balance",
  "kyc_type",
  "total_inflow_24hr",
  "count_inflow_24hr",
  "count_unique_creditors_24hr",
  "total_outflow_24hr",
  "count_outflow_24hr",
  "time_diff_first_inflow_to_outflow",
  "percent_inflow_cashed_out_1hr",
  "velocity_inflow_1hr",
  "velocity_outflow_1hr",
  "device_change_last_48hr",
  "new_payee_added_last_7d",
  "international_ip_flag",
  "txn_amount",
  "txn_hour",
  "merchant_category"]

/-- The three boolean-like columns normalized by `_to_binary`. -/
def BINARY_COLUMNS : List String := [
  "device_change_last_48hr",
  "new_payee_added_last_7d",
  "international_ip_flag"]

/-- Translation of `_to_binary`: convert YES/NO and bool representations to ints.
Mirrors the Python branch order: `bool` first (a Python `bool` is also
an `int`, so the `isinstance(value, bool)` test comes first), then
numeric cast, then string token matching, then the fallback 0. -/
def _to_binary (value : PyVal) : Int :=
  match value with
  | .bool b => if b then 1 else 0
  | .int n => n
  | .float q => truncRat q
  | .str s =>
      let v := pyLower (pyStrip s)
      if v = "yes" ∨ v = "y" ∨ v = "true" ∨ v = "1" then 1
      else if v = "no" ∨ v = "n" ∨ v = "false" ∨ v = "0" then 0
      else 0
  | .other => 0

example : _to_binary (.str "  YES  ") = 1 := by decide
example : _to_binary (.int 2) = 2 := by decide
example : _to_binary (.float (mkRat 5 2)) = 2 := by decide
example : _to_binary (.float (mkRat (-5) 2)) = -2 := by decide
example : _to_binary (.str "banana") = 0 := by decide
example : _to_binary (.bool true) = 1 := by decide

/-- A Python dict with string keys: a partial map to dynamic values. -/
def Record : Type := String → Option PyVal

/-- Dict update `data[k] = v`. -/
def setKey (d : Record) (k : String) (v : PyVal) : Record :=
  fun x => if x = k then some v else d x

/-- One iteration of the binary-column normalization loop in
`prepare_input_df`: coerce the column when present, default it to 0
when absent. -/
def normalizeBinaryStep (d : Record) (col : String) : Record :=
  match d col with
  | some v => setKey d col (.int (_to_binary v))
  | none => setKey d col (.int 0)

/-- The whole binary-column normalization loop of `prepare_input_df`. -/
def normalizeBinary (d : Record) : Record :=
  BINARY_COLUMNS.foldl normalizeBinaryStep d

/-- Structured errors the module raises: `FileNotFoundError` with the
resolved artifact path, and `ValueError` listing the missing feature
names (the Python messages interpolate exactly these payloads). -/
inductive FraudError where
  | modelNotFound (path : String)
  | missingFeatures (names : List String)
deriving DecidableEq, Repr

/-- The single-row DataFrame built by `prepare_input_df`: ordered
column/value pairs. -/
def InputDf : Type := List (String × PyVal)

/-- Translation of `prepare_input_df`: copy the input dict, normalize the binary
columns, fail when any expected feature is absent, otherwise build the
single-row frame in `FEATURES` order.  The `getD` default is
unreachable in the `ok` branch: the emptiness check guarantees every
feature is present. -/
def prepare_input_df (user_input : Record) : Except FraudError InputDf :=
  let data := normalizeBinary user_input
  let missing := FEATURES.filter (fun f => (data f).isNone)
  if missing.isEmpty then
    Except.ok (FEATURES.map (fun f => (f, (data f).getD .other)))
  else
    Except.error (.missingFeatures missing)

/-- The opaque scoring artifact: optional `predict_proba` (pair of
class probabilities for the single row, index 1 = positive class),
optional `decision_function` (margin for the single row), and the
always-present hard-label `predict`. -/
structure Model where
  predict_proba : Option (InputDf → ℚ × ℚ)
  decision_function : Option (InputDf → ℚ)
  predict : InputDf → Int

/-- Resolved artifact path: the module directory joined with
`MODEL_FILENAME`. -/
def modelPath (here : String) : String := here ++ "/" ++ MODEL_FILENAME

/-- Result of one `load_model` call: the returned artifact or error,
the value of the module-level `_model` global after the call, and
whether `joblib.load` ran during the call. -/
structure LoadOutcome where
  result : Except FraudError Model
  state : Option Model
  deserialized : Bool

/-- Translation of `load_model` over explicit state: `st` is the `_model` global
before the call (`none` = Unloaded), `fs` maps a path to the artifact
deserialized from the file there (`none` = no file at that path). -/
def load_model (here : String) (fs : String → Option Model) (st : Option Model) :
    LoadOutcome :=
  match st with
  | some m => ⟨Except.ok m, some m, false⟩
  | none =>
    match fs (modelPath here) with
    | none => ⟨Except.error (.modelNotFound (modelPath here)), none, false⟩
    | some m => ⟨Except.ok m, some m, true⟩

/-- Result of one `predict_fraud` call: the `(label, probability)`
pair or the propagated error, and the `_model` global after the call. -/
structure PredictOutcome where
  result : Except FraudError (Int × ℚ)
  state : Option Model

/-- Translation of `predict_fraud`: load the model, prepare the input frame, score by
capability preference (`predict_proba`, then `decision_function`
through the logistic transform, then hard `predict` cast to a number),
and threshold the probability with `>=`.  `mexp` abstracts the
external `math.exp`.  The Python default for `threshold` is 0.5. -/
def predict_fraud (mexp : ℚ → ℚ) (here : String) (fs : String → Option Model)
    (st : Option Model) (user_input : Record) (threshold : ℚ) : PredictOutcome :=
  let lo := load_model here fs st
  match lo.result with
  | Except.error e => ⟨Except.error e, lo.state⟩
  | Except.ok model =>
    match prepare_input_df user_input with
    | Except.error e => ⟨Except.error e, lo.state⟩
    | Except.ok X =>
      let proba : ℚ :=
        match model.predict_proba with
        | some f => (f X).2
        | none =>
          match model.decision_function with
          | some g => 1 / (1 + mexp (-(g X)))
          | none => (model.predict X : ℚ)
      let label : Int := if threshold ≤ proba then 1 else 0
      ⟨Except.ok (label, proba), lo.state⟩

/-- Build a `Record` from ordered key/value pairs (first match wins,
as read-only dict lookup). -/
def recordOf (l : List (String × PyVal)) : Record :=
  fun k => (l.find? (fun p => p.1 == k)).map Prod.snd

/-- Column lookup in the single-row frame. -/
def dfLookup (df : InputDf) (k : String) : Option PyVal :=
  (df.find? (fun p => p.1 == k)).map Prod.snd

/-- The complete 20-field example record from the spec's end-to-end
scenario. -/
def exampleFields : List (String × PyVal) := [
  ("age", .int 30),
  ("city", .str "Bengaluru"),
  ("account_tenure_months", .int 12),
  ("avg_monthly_balance", .int 25000),
  ("kyc_type", .str "Full"),
  ("total_inflow_24hr", .int 50000),
  ("count_inflow_24hr", .int 3),
  ("count_unique_creditors_24hr", .int 2),
  ("total_outflow_24hr", .int 45000),
  ("count_outflow_24hr", .int 4),
  ("time_diff_first_inflow_to_outflow", .int 10),
  ("percent_inflow_cashed_out_1hr", .int 80),
  ("velocity_inflow_1hr", .int 1),
  ("velocity_outflow_1hr", .int 2),
  ("device_change_last_48hr", .str "No"),
  ("new_payee_added_last_7d", .str "No"),
  ("international_ip_flag", .str "No"),
  ("txn_amount", .int 20000),
  ("txn_hour", .int 14),
  ("merchant_category", .str "Groceries")]

/-- The example record with the boolean-like field
`device_change_last_48hr` supplied as the number 2. -/
def exampleFieldsBin2 : List (String × PyVal) :=
  exampleFields.map (fun p =>
    if p.1 = "device_change_last_48hr" then (p.1, PyVal.int 2) else p)

/-- The example record with all three boolean-like fields removed. -/
def exampleFieldsNoBin : List (String × PyVal) :=
  exampleFields.filter (fun p => !(BINARY_COLUMNS.contains p.1))

/-- The example record with the required field `age` removed. -/
def exampleFieldsNoAge : List (String × PyVal) :=
  exampleFields.filter (fun p => p.1 != "age")

example :
    (prepare_input_df (recordOf exampleFields)).isOk = true := by decide

example :
    (match prepare_input_df (recordOf exampleFields) with
     | Except.ok df => dfLookup df "device_change_last_48hr"
     | Except.error _ => none) = some (.int 0) := by decide

/-- An empty filesystem: no artifact anywhere. -/
def fsEmpty : String → Option Model := fun _ => none

/-- Stub scoring artifact from the spec's end-to-end scenario: its
probability capability always assigns 0.2 to the positive class. -/
def stubModel : Model :=
  ⟨some (fun _ => (mkRat 4 5, mkRat 1 5)), none, fun _ => 0⟩

/-- Value that the binary-normalization loop stores for a column:
coerce when the key is present, 0 when absent. -/
def binCoerce (d : Record) (col : String) : Int :=
  match d col with
  | some v => _to_binary v
  | none => 0

lemma setKey_self (d : Record) (k : String) (v : PyVal) :
    setKey d k v k = some v := by
  simp [setKey]

lemma setKey_ne (d : Record) (k : String) (v : PyVal) (x : String) (h : x ≠ k) :
    setKey d k v x = d x := by
  simp [setKey, h]

lemma normalizeBinaryStep_self (d : Record) (col : String) :
    normalizeBinaryStep d col col = some (.int (binCoerce d col)) := by
  unfold normalizeBinaryStep binCoerce
  cases d col <;> simp [setKey]

lemma normalizeBinaryStep_ne (d : Record) (col x : String) (h : x ≠ col) :
    normalizeBinaryStep d col x = d x := by
  unfold normalizeBinaryStep
  cases d col <;> simp [setKey, h]

lemma binCoerce_congr (d d' : Record) (col : String) (h : d' col = d col) :
    binCoerce d' col = binCoerce d col := by
  unfold binCoerce
  rw [h]

/-- Pointwise description of the binary-normalization loop: binary
columns hold their coerced value, every other key is untouched. -/
lemma normalizeBinary_apply (d : Record) (f : String) :
    normalizeBinary d f =
      if f ∈ BINARY_COLUMNS then some (.int (binCoerce d f)) else d f := by
  have e : normalizeBinary d =
      normalizeBinaryStep (normalizeBinaryStep (normalizeBinaryStep d
        "device_change_last_48hr") "new_payee_added_last_7d")
        "international_ip_flag" := rfl
  rw [e]
  by_cases h3 : f = "international_ip_flag"
  · subst h3
    rw [normalizeBinaryStep_self,
      binCoerce_congr _ _ _
        (by rw [normalizeBinaryStep_ne _ _ _ (by decide),
                normalizeBinaryStep_ne _ _ _ (by decide)])]
    simp [BINARY_COLUMNS]
  · by_cases h2 : f = "new_payee_added_last_7d"
    · subst h2
      rw [normalizeBinaryStep_ne _ _ _ h3, normalizeBinaryStep_self,
        binCoerce_congr _ _ _
          (by rw [normalizeBinaryStep_ne _ _ _ (by decide)])]
      simp [BINARY_COLUMNS]
    · by_cases h1 : f = "device_change_last_48hr"
      · subst h1
        rw [normalizeBinaryStep_ne _ _ _ h3, normalizeBinaryStep_ne _ _ _ h2,
          normalizeBinaryStep_self]
        simp [BINARY_COLUMNS]
      · rw [normalizeBinaryStep_ne _ _ _ h3, normalizeBinaryStep_ne _ _ _ h2,
          normalizeBinaryStep_ne _ _ _ h1]
        rw [if_neg (by simp [BINARY_COLUMNS, h1, h2, h3])]

lemma to_binary_bool_range (b : Bool) :
    _to_binary (.bool b) = 0 ∨ _to_binary (.bool b) = 1 := by
  cases b <;> simp [_to_binary]

lemma to_binary_str_pos (s : String)
    (h : pyLower (pyStrip s) = "yes" ∨ pyLower (pyStrip s) = "y" ∨
      pyLower (pyStrip s) = "true" ∨ pyLower (pyStrip s) = "1") :
    _to_binary (.str s) = 1 := by
  show (if pyLower (pyStrip s) = "yes" ∨ pyLower (pyStrip s) = "y" ∨
      pyLower (pyStrip s) = "true" ∨ pyLower (pyStrip s) = "1" then (1 : Int)
    else if pyLower (pyStrip s) = "no" ∨ pyLower (pyStrip s) = "n" ∨
      pyLower (pyStrip s) = "false" ∨ pyLower (pyStrip s) = "0" then 0
    else 0) = 1
  rw [if_pos h]

lemma to_binary_str_neg (s : String)
    (h : pyLower (pyStrip s) = "no" ∨ pyLower (pyStrip s) = "n" ∨
      pyLower (pyStrip s) = "false" ∨ pyLower (pyStrip s) = "0") :
    _to_binary (.str s) = 0 := by
  show (if pyLower (pyStrip s) = "yes" ∨ pyLower (pyStrip s) = "y" ∨
      pyLower (pyStrip s) = "true" ∨ pyLower (pyStrip s) = "1" then (1 : Int)
    else if pyLower (pyStrip s) = "no" ∨ pyLower (pyStrip s) = "n" ∨
      pyLower (pyStrip s) = "false" ∨ pyLower (pyStrip s) = "0" then 0
    else 0) = 0
  rcases h with h | h | h | h <;> rw [h] <;> decide

lemma to_binary_str_range (s : String) :
    _to_binary (.str s) = 0 ∨ _to_binary (.str s) = 1 := by
  by_cases hp : pyLower (pyStrip s) = "yes" ∨ pyLower (pyStrip s) = "y" ∨
      pyLower (pyStrip s) = "true" ∨ pyLower (pyStrip s) = "1"
  · exact Or.inr (to_binary_str_pos s hp)
  · refine Or.inl ?_
    show (if pyLower (pyStrip s) = "yes" ∨ pyLower (pyStrip s) = "y" ∨
        pyLower (pyStrip s) = "true" ∨ pyLower (pyStrip s) = "1" then (1 : Int)
      else if pyLower (pyStrip s) = "no" ∨ pyLower (pyStrip s) = "n" ∨
        pyLower (pyStrip s) = "false" ∨ pyLower (pyStrip s) = "0" then 0
      else 0) = 0
    rw [if_neg hp]
    split <;> rfl

/-- C1 counterexample: the int input 2 is returned as 2 by
`_to_binary`, which is neither 0 nor 1 — the claim that every
bool/int/float/str input maps to exactly 0 or 1 is false on the code. -/
theorem to_binary_int_two_cex :
    _to_binary (PyVal.int 2) = 2 ∧
      _to_binary (PyVal.int 2) ≠ 0 ∧ _to_binary (PyVal.int 2) ≠ 1 := by
  decide

/-- C1 (amended): `_to_binary` is total (a Lean function, never
raising); bool and str inputs map to exactly 0 or 1 and unrecognized
strings and other types map to 0, but int and float inputs are cast
with Python `int(...)` and returned as-is, so numeric values outside 0
and 1 pass straight through. -/
theorem to_binary_total_amended :
    (∀ b : Bool, _to_binary (.bool b) = 0 ∨ _to_binary (.bool b) = 1) ∧
    (∀ s : String, _to_binary (.str s) = 0 ∨ _to_binary (.str s) = 1) ∧
    (∀ s : String, pyLower (pyStrip s) ≠ "yes" → pyLower (pyStrip s) ≠ "y" →
      pyLower (pyStrip s) ≠ "true" → pyLower (pyStrip s) ≠ "1" →
      pyLower (pyStrip s) ≠ "no" → pyLower (pyStrip s) ≠ "n" →
      pyLower (pyStrip s) ≠ "false" → pyLower (pyStrip s) ≠ "0" →
      _to_binary (.str s) = 0) ∧
    (∀ n : Int, _to_binary (.int n) = n) ∧
    (∀ q : ℚ, _to_binary (.float q) = truncRat q) ∧
    _to_binary .other = 0 := by
  refine ⟨to_binary_bool_range, to_binary_str_range, ?_, fun _ => rfl,
    fun _ => rfl, rfl⟩
  intro s h1 h2 h3 h4 h5 h6 h7 h8
  show (if pyLower (pyStrip s) = "yes" ∨ pyLower (pyStrip s) = "y" ∨
      pyLower (pyStrip s) = "true" ∨ pyLower (pyStrip s) = "1" then (1 : Int)
    else if pyLower (pyStrip s) = "no" ∨ pyLower (pyStrip s) = "n" ∨
      pyLower (pyStrip s) = "false" ∨ pyLower (pyStrip s) = "0" then 0
    else 0) = 0
  rw [if_neg (by tauto), if_neg (by tauto)]

/-- C1 amended-theorem witness at concrete inputs of every shape. -/
theorem to_binary_total_amended_witness :
    (_to_binary (.bool true) = 0 ∨ _to_binary (.bool true) = 1) ∧
    (_to_binary (.str "maybe") = 0 ∨ _to_binary (.str "maybe") = 1) ∧
    _to_binary (.str "maybe") = 0 ∧
    _to_binary (.int 7) = 7 ∧
    _to_binary (.float (mkRat 7 2)) = truncRat (mkRat 7 2) ∧
    _to_binary .other = 0 :=
  ⟨to_binary_total_amended.1 true,
   to_binary_total_amended.2.1 "maybe",
   to_binary_total_amended.2.2.1 "maybe" (by decide) (by decide) (by decide)
     (by decide) (by decide) (by decide) (by decide) (by decide),
   to_binary_total_amended.2.2.2.1 7,
   to_binary_total_amended.2.2.2.2.1 (mkRat 7 2),
   to_binary_total_amended.2.2.2.2.2⟩

/-- C10: string coercion first strips surrounding whitespace and
lowercases, so any string whose stripped lowercase form is an
affirmative token coerces to 1 and any whose form is a negative token
coerces to 0, instead of falling back to 0 as unrecognized. -/
theorem to_binary_strips_and_lowercases :
    (∀ s : String, (pyLower (pyStrip s) = "yes" ∨ pyLower (pyStrip s) = "y" ∨
        pyLower (pyStrip s) = "true" ∨ pyLower (pyStrip s) = "1") →
      _to_binary (.str s) = 1) ∧
    (∀ s : String, (pyLower (pyStrip s) = "no" ∨ pyLower (pyStrip s) = "n" ∨
        pyLower (pyStrip s) = "false" ∨ pyLower (pyStrip s) = "0") →
      _to_binary (.str s) = 0) :=
  ⟨to_binary_str_pos, to_binary_str_neg⟩

/-- C10 witness: a padded upper-case YES coerces to 1 and a padded
mixed-case False coerces to 0. -/
theorem to_binary_strips_and_lowercases_witness :
    _to_binary (.str "  YES  ") = 1 ∧ _to_binary (.str " faLSe ") = 0 :=
  ⟨to_binary_strips_and_lowercases.1 "  YES  " (by decide),
   to_binary_strips_and_lowercases.2 " faLSe " (by decide)⟩

lemma binary_subset_features : ∀ c ∈ BINARY_COLUMNS, c ∈ FEATURES := by
  decide

/-- When every non-binary feature is present, no feature is missing
after binary normalization. -/
lemma missing_nil (d : Record)
    (hall : ∀ f ∈ FEATURES, f ∉ BINARY_COLUMNS → (d f).isSome) :
    FEATURES.filter (fun f => (normalizeBinary d f).isNone) = [] := by
  rw [List.filter_eq_nil_iff]
  intro f hf
  rw [normalizeBinary_apply]
  by_cases hb : f ∈ BINARY_COLUMNS
  · simp [hb]
  · have := hall f hf hb
    simp only [if_neg hb]
    cases hd : d f
    · rw [hd] at this; cases this
    · simp

/-- On any input whose non-binary features are all present,
`prepare_input_df` succeeds with the frame built over `FEATURES`. -/
lemma prepare_ok (d : Record)
    (hall : ∀ f ∈ FEATURES, f ∉ BINARY_COLUMNS → (d f).isSome) :
    prepare_input_df d =
      Except.ok (FEATURES.map (fun f => (f, (normalizeBinary d f).getD .other))) := by
  simp only [prepare_input_df]
  rw [missing_nil d hall]
  rfl

/-- Looking a key up in a frame built over a key list by a value
function returns that function's value at the key. -/
lemma dfLookup_map_eq (g : String → PyVal) (l : List String) (c : String)
    (hc : c ∈ l) :
    dfLookup (l.map (fun f => (f, g f))) c = some (g c) := by
  induction l with
  | nil => cases hc
  | cons a tl ih =>
    by_cases ha : a = c
    · subst ha
      unfold dfLookup
      rw [List.map_cons, List.find?_cons_of_pos _ (by simp)]
      rfl
    · have h : c ∈ tl := by
        rcases List.mem_cons.mp hc with h | h
        · exact absurd h.symm ha
        · exact h
      unfold dfLookup
      rw [List.map_cons, List.find?_cons_of_neg _ (by simp [ha])]
      exact ih h

/-- C2 counterexample: the numeric representation 2 for the
boolean-like field `device_change_last_48hr` is a supported input type
(number), normalization succeeds, yet the normalized value is 2 — not
in 0..1 — so the claim is false as stated. -/
theorem prepare_input_df_numeric_cex :
    (match prepare_input_df (recordOf exampleFieldsBin2) with
     | Except.ok df => dfLookup df "device_change_last_48hr"
     | Except.error _ => none) = some (PyVal.int 2) ∧
    PyVal.int 2 ≠ PyVal.int 0 ∧ PyVal.int 2 ≠ PyVal.int 1 := by
  decide

/-- C2 (amended): for every raw record containing all 20 schema fields
whose three boolean-like fields are given as bool or string,
normalization succeeds, the columns are exactly the 20 schema keys in
schema order, and each boolean-like field holds 0 or 1.  (Numeric
representations also succeed but are cast with `int(...)` and can land
outside 0..1.) -/
theorem prepare_input_df_schema_amended (d : Record)
    (hall : ∀ f ∈ FEATURES, (d f).isSome)
    (hbin : ∀ c ∈ BINARY_COLUMNS, ∀ v, d c = some v →
      (∃ b, v = PyVal.bool b) ∨ (∃ s, v = PyVal.str s)) :
    ∃ df, prepare_input_df d = Except.ok df ∧
      df.map Prod.fst = FEATURES ∧
      ∀ c ∈ BINARY_COLUMNS,
        dfLookup df c = some (.int 0) ∨ dfLookup df c = some (.int 1) := by
  have hall' : ∀ f ∈ FEATURES, f ∉ BINARY_COLUMNS → (d f).isSome :=
    fun f hf _ => hall f hf
  refine ⟨_, prepare_ok d hall', ?_, ?_⟩
  · rw [List.map_map,
      show (Prod.fst ∘ fun f => (f, (normalizeBinary d f).getD PyVal.other)) = id
        from rfl, List.map_id]
  · intro c hc
    have hcf : c ∈ FEATURES := binary_subset_features c hc
    rw [dfLookup_map_eq _ _ _ hcf, normalizeBinary_apply, if_pos hc]
    obtain ⟨v, hv⟩ := Option.isSome_iff_exists.mp (hall c hcf)
    rcases hbin c hc v hv with ⟨b, rfl⟩ | ⟨s, rfl⟩
    · rcases to_binary_bool_range b with h | h <;>
        simp [binCoerce, hv, h]
    · rcases to_binary_str_range s with h | h <;>
        simp [binCoerce, hv, h]

/-- C2 witness: the spec's complete example record normalizes to a
frame with the schema keys in order and all binary values in 0..1. -/
theorem prepare_input_df_schema_amended_witness :
    ∃ df, prepare_input_df (recordOf exampleFields) = Except.ok df ∧
      df.map Prod.fst = FEATURES ∧
      ∀ c ∈ BINARY_COLUMNS,
        dfLookup df c = some (.int 0) ∨ dfLookup df c = some (.int 1) :=
  prepare_input_df_schema_amended (recordOf exampleFields) (by decide)
    (by
      intro c hc v hv
      have hc' : c = "device_change_last_48hr" ∨ c = "new_payee_added_last_7d" ∨
          c = "international_ip_flag" := by simpa [BINARY_COLUMNS] using hc
      rcases hc' with rfl | rfl | rfl
      · refine Or.inr ⟨"No", ?_⟩
        have h0 : recordOf exampleFields "device_change_last_48hr"
            = some (PyVal.str "No") := by decide
        rw [h0] at hv
        exact (Option.some_inj.mp hv).symm
      · refine Or.inr ⟨"No", ?_⟩
        have h0 : recordOf exampleFields "new_payee_added_last_7d"
            = some (PyVal.str "No") := by decide
        rw [h0] at hv
        exact (Option.some_inj.mp hv).symm
      · refine Or.inr ⟨"No", ?_⟩
        have h0 : recordOf exampleFields "international_ip_flag"
            = some (PyVal.str "No") := by decide
        rw [h0] at hv
        exact (Option.some_inj.mp hv).symm)

/-- C7: a record may omit any subset of the three boolean-like fields;
as long as every non-binary feature is present, normalization succeeds
and each absent boolean-like field is defaulted to 0. -/
theorem prepare_input_df_binary_defaults (d : Record)
    (hnb : ∀ f ∈ FEATURES, f ∉ BINARY_COLUMNS → (d f).isSome) :
    ∃ df, prepare_input_df d = Except.ok df ∧
      ∀ c ∈ BINARY_COLUMNS, d c = none → dfLookup df c = some (.int 0) := by
  refine ⟨_, prepare_ok d hnb, ?_⟩
  intro c hc hnone
  have hcf : c ∈ FEATURES := binary_subset_features c hc
  rw [dfLookup_map_eq _ _ _ hcf, normalizeBinary_apply, if_pos hc]
  simp [binCoerce, hnone]

/-- C7 witness: the example record with all three boolean-like fields
removed still normalizes, and each of the three defaults to 0. -/
theorem prepare_input_df_binary_defaults_witness :
    ∃ df, prepare_input_df (recordOf exampleFieldsNoBin) = Except.ok df ∧
      ∀ c ∈ BINARY_COLUMNS, recordOf exampleFieldsNoBin c = none →
        dfLookup df c = some (.int 0) :=
  prepare_input_df_binary_defaults _ (by decide)

/-- C3: when at least one required non-boolean feature is absent,
normalization fails with the missing-features error, the error's name
list is nonempty, lists every absent non-boolean feature and only
absent non-boolean features, and `predict_fraud` (with a loaded model)
returns exactly this error with the cache untouched. -/
theorem missing_features_propagated (mexp : ℚ → ℚ) (here : String)
    (fs : String → Option Model) (m : Model) (d : Record) (t : ℚ)
    (hmiss : ∃ f ∈ FEATURES, f ∉ BINARY_COLUMNS ∧ d f = none) :
    ∃ names, prepare_input_df d = Except.error (.missingFeatures names) ∧
      names ≠ [] ∧
      (∀ f ∈ FEATURES, f ∉ BINARY_COLUMNS → d f = none → f ∈ names) ∧
      (∀ f ∈ names, f ∈ FEATURES ∧ f ∉ BINARY_COLUMNS ∧ d f = none) ∧
      predict_fraud mexp here fs (some m) d t =
        ⟨Except.error (.missingFeatures names), some m⟩ := by
  obtain ⟨f0, hf0, hnb0, hn0⟩ := hmiss
  have hm0 : f0 ∈ FEATURES.filter (fun f => (normalizeBinary d f).isNone) := by
    rw [List.mem_filter]
    exact ⟨hf0, by rw [normalizeBinary_apply, if_neg hnb0, hn0]; rfl⟩
  have hne : (FEATURES.filter (fun f => (normalizeBinary d f).isNone)) ≠ [] := by
    intro h
    rw [h] at hm0
    cases hm0
  have hprep : prepare_input_df d =
      Except.error (.missingFeatures
        (FEATURES.filter (fun f => (normalizeBinary d f).isNone))) := by
    simp only [prepare_input_df]
    rw [if_neg (by simp [List.isEmpty_iff, hne])]
  refine ⟨_, hprep, hne, ?_, ?_, ?_⟩
  · intro f hf hnb hn
    rw [List.mem_filter]
    exact ⟨hf, by rw [normalizeBinary_apply, if_neg hnb, hn]; rfl⟩
  · intro f hf
    obtain ⟨hfF, hnone⟩ := List.mem_filter.mp hf
    rw [normalizeBinary_apply] at hnone
    by_cases hb : f ∈ BINARY_COLUMNS
    · rw [if_pos hb] at hnone; cases hnone
    · rw [if_neg hb] at hnone
      exact ⟨hfF, hb, Option.isNone_iff_eq_none.mp hnone⟩
  · simp [predict_fraud, load_model, hprep]

/-- C3 witness: removing `age` from the complete example record makes
normalization and prediction fail with an error naming the missing
features. -/
theorem missing_features_propagated_witness :
    ∃ names, prepare_input_df (recordOf exampleFieldsNoAge) =
        Except.error (.missingFeatures names) ∧
      names ≠ [] ∧
      (∀ f ∈ FEATURES, f ∉ BINARY_COLUMNS →
        recordOf exampleFieldsNoAge f = none → f ∈ names) ∧
      (∀ f ∈ names, f ∈ FEATURES ∧ f ∉ BINARY_COLUMNS ∧
        recordOf exampleFieldsNoAge f = none) ∧
      predict_fraud (fun q => q) "app" fsEmpty (some stubModel)
          (recordOf exampleFieldsNoAge) (mkRat 1 2) =
        ⟨Except.error (.missingFeatures names), some stubModel⟩ :=
  missing_features_propagated _ _ _ _ _ _ ⟨"age", by decide, by decide, by decide⟩

/-- A filesystem holding the stub artifact at every path. -/
def fsStub : String → Option Model := fun _ => some stubModel

/-- Artifact exposing only a margin capability. -/
def marginModel : Model := ⟨none, some (fun _ => 0), fun _ => 0⟩

/-- Artifact exposing only the hard-label capability. -/
def labelModel : Model := ⟨none, none, fun _ => 1⟩

/-- The frame that `prepare_input_df` builds from the example record. -/
def exampleDf : InputDf :=
  FEATURES.map (fun f =>
    (f, (normalizeBinary (recordOf exampleFields) f).getD .other))

/-- C4: whenever `predict_fraud` succeeds, the label is 1 exactly when
the probability is at least the threshold (so probability equal to the
threshold yields 1), and the label is always 0 or 1. -/
theorem predict_threshold_label (mexp : ℚ → ℚ) (here : String)
    (fs : String → Option Model) (st : Option Model) (d : Record) (t : ℚ)
    (r : Int × ℚ) (st' : Option Model)
    (h : predict_fraud mexp here fs st d t = ⟨Except.ok r, st'⟩) :
    r.1 = (if t ≤ r.2 then 1 else 0) ∧ (r.2 = t → r.1 = 1) ∧
      (r.1 = 0 ∨ r.1 = 1) := by
  have hl : r.1 = (if t ≤ r.2 then 1 else 0) := by
    simp only [predict_fraud] at h
    split at h
    · simp at h
    · split at h
      · simp at h
      · injection h with h1 h2
        injection h1 with h3
        rw [← h3]
  refine ⟨hl, ?_, ?_⟩
  · intro he
    rw [hl, he]
    simp
  · rw [hl]
    split
    · exact Or.inr rfl
    · exact Or.inl rfl

/-- C4 witness: with the stub artifact (positive-class probability
0.2) and threshold 0.2, the probability equals the threshold and the
label is 1. -/
theorem predict_threshold_label_witness :
    (1 : Int) = (if (mkRat 1 5 : ℚ) ≤ mkRat 1 5 then 1 else 0) ∧
    ((mkRat 1 5 : ℚ) = mkRat 1 5 → (1 : Int) = 1) ∧
    ((1 : Int) = 0 ∨ (1 : Int) = 1) :=
  predict_threshold_label (fun q => q) "app" fsEmpty (some stubModel)
    (recordOf exampleFields) (mkRat 1 5) ((1 : Int), mkRat 1 5)
    (some stubModel) rfl

/-- C5: the scoring path follows the fixed capability-preference
order: with `predict_proba` present the probability is the
positive-class mass; with only `decision_function` it is the logistic
transform of the margin; with neither it is the hard label cast to a
number. -/
theorem predict_capability_preference (mexp : ℚ → ℚ) (here : String)
    (fs : String → Option Model) (m : Model) (d : Record) (t : ℚ) (X : InputDf)
    (hX : prepare_input_df d = Except.ok X) :
    (∀ f, m.predict_proba = some f →
      (predict_fraud mexp here fs (some m) d t).result =
        Except.ok (if t ≤ (f X).2 then 1 else 0, (f X).2)) ∧
    (∀ g, m.predict_proba = none → m.decision_function = some g →
      (predict_fraud mexp here fs (some m) d t).result =
        Except.ok (if t ≤ 1 / (1 + mexp (-(g X))) then 1 else 0,
          1 / (1 + mexp (-(g X))))) ∧
    (m.predict_proba = none → m.decision_function = none →
      (predict_fraud mexp here fs (some m) d t).result =
        Except.ok (if t ≤ (m.predict X : ℚ) then 1 else 0,
          (m.predict X : ℚ))) := by
  refine ⟨?_, ?_, ?_⟩
  · intro f hf
    simp [predict_fraud, load_model, hX, hf]
  · intro g hp hg
    simp [predict_fraud, load_model, hX, hp, hg]
  · intro hp hg
    simp [predict_fraud, load_model, hX, hp, hg]

/-- C5 witness: the three capability shapes at the example record —
probability artifact returns its positive-class mass 0.2, the
margin-only artifact goes through the logistic transform, and the
label-only artifact's hard label is cast to a number. -/
theorem predict_capability_preference_witness :
    ((predict_fraud (fun _ => (1 : ℚ)) "app" fsEmpty (some stubModel)
        (recordOf exampleFields) (mkRat 1 2)).result =
      Except.ok (if (mkRat 1 2 : ℚ) ≤ mkRat 1 5 then 1 else 0, mkRat 1 5)) ∧
    ((predict_fraud (fun _ => (1 : ℚ)) "app" fsEmpty (some marginModel)
        (recordOf exampleFields) (mkRat 1 2)).result =
      Except.ok (if (mkRat 1 2 : ℚ) ≤ 1 / (1 + (1 : ℚ)) then 1 else 0,
        1 / (1 + (1 : ℚ)))) ∧
    ((predict_fraud (fun _ => (1 : ℚ)) "app" fsEmpty (some labelModel)
        (recordOf exampleFields) (mkRat 1 2)).result =
      Except.ok (if (mkRat 1 2 : ℚ) ≤ ((1 : Int) : ℚ) then 1 else 0,
        ((1 : Int) : ℚ))) :=
  ⟨(predict_capability_preference (fun _ => (1 : ℚ)) "app" fsEmpty stubModel
      (recordOf exampleFields) (mkRat 1 2) exampleDf
      (prepare_ok _ (by decide))).1 _ rfl,
   (predict_capability_preference (fun _ => (1 : ℚ)) "app" fsEmpty marginModel
      (recordOf exampleFields) (mkRat 1 2) exampleDf
      (prepare_ok _ (by decide))).2.1 _ rfl rfl,
   (predict_capability_preference (fun _ => (1 : ℚ)) "app" fsEmpty labelModel
      (recordOf exampleFields) (mkRat 1 2) exampleDf
      (prepare_ok _ (by decide))).2.2 rfl rfl⟩

/-- C6: `load_model` fails (necessarily with the not-found error) if
and only if the cache is empty and no file exists at the resolved
path; every failure carries exactly that resolved path and leaves the
cache empty (so a later call retries the load). -/
theorem load_model_not_found_iff (here : String) (fs : String → Option Model)
    (st : Option Model) :
    ((∃ e, (load_model here fs st).result = Except.error e) ↔
      (st = none ∧ fs (modelPath here) = none)) ∧
    (∀ e, (load_model here fs st).result = Except.error e →
      e = .modelNotFound (modelPath here) ∧
        (load_model here fs st).state = none ∧ st = none) := by
  constructor
  · constructor
    · rintro ⟨e, he⟩
      cases st with
      | some m => simp [load_model] at he
      | none =>
        cases hf : fs (modelPath here) with
        | none => exact ⟨rfl, rfl⟩
        | some m => simp [load_model, hf] at he
    · rintro ⟨rfl, hf⟩
      exact ⟨.modelNotFound (modelPath here), by simp [load_model, hf]⟩
  · intro e he
    cases st with
    | some m => simp [load_model] at he
    | none =>
      cases hf : fs (modelPath here) with
      | none =>
        simp only [load_model, hf] at he
        refine ⟨?_, by simp [load_model, hf], rfl⟩
        injection he with h1
        exact h1.symm
      | some m => simp [load_model, hf] at he

/-- C6 witness: with no artifact file and an empty cache, the load
fails with the resolved path and the cache stays empty. -/
theorem load_model_not_found_iff_witness :
    FraudError.modelNotFound (modelPath "app") =
        .modelNotFound (modelPath "app") ∧
      (load_model "app" fsEmpty none).state = none ∧
      (none : Option Model) = none :=
  (load_model_not_found_iff "app" fsEmpty none).2
    (.modelNotFound (modelPath "app")) rfl

/-- C8: the cache is a two-state machine.  In the Loaded state every
`load_model` call returns the cached instance without deserializing
and keeps the state Loaded; from Unloaded, a successful first call
deserializes once and transitions to Loaded; and `predict_fraud` never
moves a Loaded state back to Unloaded. -/
theorem load_model_cache_machine (here : String) (fs : String → Option Model)
    (st : Option Model) :
    (∀ m, st = some m → load_model here fs st =
      ⟨Except.ok m, some m, false⟩) ∧
    (∀ m, st = none → fs (modelPath here) = some m →
      load_model here fs st = ⟨Except.ok m, some m, true⟩) ∧
    (∀ m mexp d t, st = some m →
      (predict_fraud mexp here fs st d t).state = some m) := by
  refine ⟨?_, ?_, ?_⟩
  · rintro m rfl
    rfl
  · rintro m rfl hf
    simp [load_model, hf]
  · rintro m mexp d t rfl
    simp only [predict_fraud, load_model]
    split
    · rfl
    · split
      · rfl
      · rfl

/-- C8 witness: a loaded cache is returned as-is without
deserialization, the first load from a present file deserializes and
caches, and a prediction leaves a loaded cache loaded. -/
theorem load_model_cache_machine_witness :
    load_model "app" fsEmpty (some stubModel) =
        ⟨Except.ok stubModel, some stubModel, false⟩ ∧
      load_model "app" fsStub none =
        ⟨Except.ok stubModel, some stubModel, true⟩ ∧
      (predict_fraud (fun q => q) "app" fsEmpty (some stubModel)
          (recordOf exampleFields) (mkRat 1 2)).state = some stubModel :=
  ⟨(load_model_cache_machine "app" fsEmpty (some stubModel)).1 stubModel rfl,
   (load_model_cache_machine "app" fsStub none).2.1 stubModel rfl rfl,
   (load_model_cache_machine "app" fsEmpty (some stubModel)).2.2 stubModel
     (fun q => q) (recordOf exampleFields) (mkRat 1 2) rfl⟩

end FraudUtils
